import Mathlib

/-!
Shallow embedding of the profile-submission flow of
`src/app/ProfileCompletionScreen.tsx`.

The flow orchestrates external collaborators (image manipulation, blob
fetch, object storage, record datastore, navigation, clock).  Each
collaborator is modelled as a component of an `Env` record; every call the
flow issues to a collaborator is additionally recorded as an `Event` in a
trace, so that theorems can speak about which calls occur and in what
order.

Numeric conventions: the JPEG `compress` quality factors 0.7 and 0.5 are
represented in hundredths (70 and 50) because they are opaque
configuration constants handed to the external primitive, never computed
with.  `Date.now()` is modelled as `Env.clock : Nat → Nat`, indexed by the
number of clock reads performed so far (the flow performs exactly two
reads, in order, at indices 0 and 1).
-/

deriving instance DecidableEq for Except

namespace ProfileCompletion

/-- Embedding of JavaScript `String.prototype.trim`: drop leading and
trailing whitespace.  Defined by structural recursion over the character
list so that concrete instances evaluate inside the kernel. -/
def jsTrim (s : String) : String :=
  String.mk (((s.data.dropWhile Char.isWhitespace).reverse.dropWhile Char.isWhitespace).reverse)

/-- Output encoding passed to the image manipulator
(`ImageManipulator.SaveFormat.JPEG` is the only one used). -/
inductive Fmt where
  | jpeg
deriving DecidableEq

/-- Result of one `ImageManipulator.manipulateAsync` call:
`{ uri, width, height }` of the derived variant. -/
structure Variant where
  uri : String
  width : Nat
  height : Nat
deriving DecidableEq

/-- Metadata sub-record of the avatar JSONB structure (interface
`ImageData.metadata` in the source). -/
structure Metadata where
  width : Nat
  height : Nat
  format : String
  size : Nat
deriving DecidableEq

/-- Avatar JSONB structure (interface `ImageData` in the source). -/
structure ImageData where
  url : String
  thumbnail_url : String
  metadata : Metadata
deriving DecidableEq

/-- Payload of the record write
the datastore update call on the users table with payload bio, avatar, links. -/
structure UpdatePayload where
  bio : String
  avatar : Option ImageData
  links : String
deriving DecidableEq

/-- One call issued by the flow to an external collaborator.  The
`storageRemove` constructor exists so that "no deletion call is issued"
is statable; the flow never emits it. -/
inductive Event where
  | manip (srcUri : String) (resizeWidth : Nat) (compressPct : Nat) (fmt : Fmt)
  | fetchBlob (uri : String)
  | storageUpload (bucket : String) (key : String) (blobSize : Nat)
  | storageGetPublicUrl (bucket : String) (key : String)
  | storageRemove (bucket : String) (key : String)
  | dbUpdate (userId : String) (payload : UpdatePayload)
  | navReplace (route : String)
  | navPush (route : String)
deriving DecidableEq

/-- True exactly on record-write events. -/
def Event.isWrite : Event → Bool
  | Event.dbUpdate _ _ => true
  | _ => false

/-- True exactly on storage-upload events. -/
def Event.isUpload : Event → Bool
  | Event.storageUpload _ _ _ => true
  | _ => false

/-- True exactly on storage-deletion events. -/
def Event.isRemove : Event → Bool
  | Event.storageRemove _ _ => true
  | _ => false

/-- True exactly on image-transformation events. -/
def Event.isManip : Event → Bool
  | Event.manip _ _ _ _ => true
  | _ => false

/-- True exactly on blob-fetch events. -/
def Event.isFetch : Event → Bool
  | Event.fetchBlob _ => true
  | _ => false

/-- Environment of external collaborators.  Error payloads are the
`message` strings the flow surfaces (`err instanceof Error ? err.message
: ...`); the error content coming from the image manipulator is discarded by
`compressImage`, hence `Except Unit`. -/
structure Env where
  manipulateAsync : String → Nat → Nat → Fmt → Except Unit Variant
  fetchBlob : String → Except String Nat
  uploadResult : String → String → Option String
  publicUrl : String → String → String
  updateResult : String → UpdatePayload → Option String
  clock : Nat → Nat

/-- Local component state read by `handleSubmit`: the session (modelled by
the current user id when present), the two text fields, the picked image
local path, the loading flag and the current error message. -/
structure ScreenState where
  session : Option String
  bio : String
  links : String
  avatar : Option String
  loading : Bool
  error : Option String
deriving DecidableEq

/-- Observable outcome of one submit invocation: the ordered trace of
external calls, the final error message, and the final loading flag. -/
structure SubmitOutcome where
  trace : List Event
  error : Option String
  loading : Bool
deriving DecidableEq

/-- Embedding of `compressImage` (ProfileCompletionScreen.tsx lines
96-125): two `manipulateAsync` calls, both on the original `uri` — main
variant width 800 at quality 0.70, thumbnail width 200 at quality 0.50,
both JPEG.  Any failure is caught and rethrown as a single generic error
whose message is the string Failed to compress image.  The second call is
not reached when the first one throws (`await` rethrows immediately). -/
def compressImage (env : Env) (uri : String) :
    List Event × Except String (Variant × Variant) :=
  match env.manipulateAsync uri 800 70 Fmt.jpeg with
  | Except.error _ =>
      ([Event.manip uri 800 70 Fmt.jpeg], Except.error "Failed to compress image")
  | Except.ok mainV =>
      match env.manipulateAsync uri 200 50 Fmt.jpeg with
      | Except.error _ =>
          ([Event.manip uri 800 70 Fmt.jpeg, Event.manip uri 200 50 Fmt.jpeg],
           Except.error "Failed to compress image")
      | Except.ok thumbV =>
          ([Event.manip uri 800 70 Fmt.jpeg, Event.manip uri 200 50 Fmt.jpeg],
           Except.ok (mainV, thumbV))

/-- Final step of `handleSubmit`: the single record write
issued to the users table with payload bio, avatar, links, keyed by the
current user id, followed by either the navigation push to the dash route
or the catch branch; `finally` resets the loading flag in both cases. -/
def finishWrite (env : Env) (st : ScreenState) (userId : String)
    (es : List Event) (avatarData : Option ImageData) : SubmitOutcome :=
  let payload : UpdatePayload := { bio := st.bio, avatar := avatarData, links := st.links }
  match env.updateResult userId payload with
  | some msg =>
      { trace := es ++ [Event.dbUpdate userId payload], error := some msg, loading := false }
  | none =>
      { trace := es ++ [Event.dbUpdate userId payload, Event.navPush "/dash"],
        error := none, loading := false }

/-- Embedding of `handleSubmit` (ProfileCompletionScreen.tsx lines
144-218).  Mirrors the source line by line:
no session → redirect and return (loading and error untouched);
`setLoading(true); setError(null)`; validation guard
`!bio.trim() || !avatar || !links.trim()` → single validation error, no
external call; then the try block: `compressImage`, main key
`id-Date.now().jpg` (clock read 0), fetch+blob of the main variant, thumb
key `id-Date.now()-thumb.jpg` (clock read 1), fetch+blob of the
thumbnail, `Promise.all` of the two uploads (both issued jointly, both
results awaited, main error checked first), the two `getPublicUrl` calls,
assembly of the avatar JSONB from the width/height of the main variant
and the byte size of the main blob, and the record write.  The message of
every caught error
becomes the displayed error; `finally` resets loading. -/
def handleSubmit (env : Env) (st : ScreenState) : SubmitOutcome :=
  match st.session with
  | none => { trace := [Event.navReplace "/auth"], error := st.error, loading := st.loading }
  | some userId =>
      if jsTrim st.bio = "" ∨ st.avatar = none ∨ jsTrim st.links = "" then
        { trace := [], error := some "All fields are required.", loading := false }
      else
        match st.avatar with
        | none =>
            -- `if (avatar)` is falsy: avatarData stays null (unreachable after the guard)
            finishWrite env st userId [] none
        | some uri =>
            match compressImage env uri with
            | (es, Except.error msg) =>
                { trace := es, error := some msg, loading := false }
            | (es, Except.ok (mainV, thumbV)) =>
                let mainFileName := userId ++ "-" ++ toString (env.clock 0) ++ ".jpg"
                match env.fetchBlob mainV.uri with
                | Except.error msg =>
                    { trace := es ++ [Event.fetchBlob mainV.uri],
                      error := some msg, loading := false }
                | Except.ok mainSize =>
                    let thumbFileName := userId ++ "-" ++ toString (env.clock 1) ++ "-thumb.jpg"
                    match env.fetchBlob thumbV.uri with
                    | Except.error msg =>
                        { trace := es ++ [Event.fetchBlob mainV.uri, Event.fetchBlob thumbV.uri],
                          error := some msg, loading := false }
                    | Except.ok thumbSize =>
                        let es2 := es ++ [Event.fetchBlob mainV.uri, Event.fetchBlob thumbV.uri,
                          Event.storageUpload "avatars" mainFileName mainSize,
                          Event.storageUpload "avatars" thumbFileName thumbSize]
                        match env.uploadResult "avatars" mainFileName with
                        | some msg => { trace := es2, error := some msg, loading := false }
                        | none =>
                            match env.uploadResult "avatars" thumbFileName with
                            | some msg => { trace := es2, error := some msg, loading := false }
                            | none =>
                                let mainUrl := env.publicUrl "avatars" mainFileName
                                let thumbUrl := env.publicUrl "avatars" thumbFileName
                                let avatarData : ImageData :=
                                  { url := mainUrl, thumbnail_url := thumbUrl,
                                    metadata := { width := mainV.width, height := mainV.height,
                                                  format := "jpeg", size := mainSize } }
                                finishWrite env st userId
                                  (es2 ++ [Event.storageGetPublicUrl "avatars" mainFileName,
                                           Event.storageGetPublicUrl "avatars" thumbFileName])
                                  (some avatarData)

/-- Embedding of the Save button (ProfileCompletionScreen.tsx lines
260-264): `onPress={handleSubmit}` with `disabled={loading}`.  A disabled
control does not fire its press handler, so while loading the press is a
no-op on the observable state of the flow. -/
def savePress (env : Env) (st : ScreenState) : SubmitOutcome :=
  if st.loading then { trace := [], error := st.error, loading := st.loading }
  else handleSubmit env st

/-! Concrete fixtures used by witnesses and counterexamples. -/

/-- Fixture state: valid session, non-empty (untrimmed) bio, non-empty
links, picked image. -/
def st1 : ScreenState :=
  { session := some "u1", bio := " hello ", links := "https://x.com",
    avatar := some "img", loading := false, error := none }

/-- Fixture environment in which every collaborator succeeds; the clock
returns its read index, so the two reads differ. -/
def env1 : Env :=
  { manipulateAsync := fun u w _ _ =>
      Except.ok { uri := u ++ "@" ++ toString w, width := w, height := w / 2 },
    fetchBlob := fun _ => Except.ok 1024,
    uploadResult := fun _ _ => none,
    publicUrl := fun _ k => "https://cdn/" ++ k,
    updateResult := fun _ _ => none,
    clock := fun i => i }

/-- Fixture environment whose image manipulator always fails. -/
def envManipFail : Env :=
  { env1 with manipulateAsync := fun _ _ _ _ => Except.error () }

/-- Fixture environment in which the main upload fails and the thumbnail
upload succeeds. -/
def envMainUpFail : Env :=
  { env1 with uploadResult := fun _ k => if k = "u1-0.jpg" then some "main upload failed" else none }

/-- Fixture environment in which the thumbnail upload fails and the main
upload succeeds. -/
def envThumbUpFail : Env :=
  { env1 with uploadResult := fun _ k => if k = "u1-1-thumb.jpg" then some "thumb upload failed" else none }

/-- Fixture environment in which both uploads succeed and the record
write fails. -/
def envWriteFail : Env :=
  { env1 with updateResult := fun _ _ => some "db down" }

/-- Main variant produced by `env1` for the picked image `img`. -/
def v800 : Variant := { uri := "img@800", width := 800, height := 400 }

/-- Thumbnail variant produced by `env1` for the picked image `img`. -/
def v200 : Variant := { uri := "img@200", width := 200, height := 100 }

/-- Fixture state whose bio is whitespace only (empty after trimming). -/
def stBlankBio : ScreenState := { st1 with bio := "   " }

/-- Fixture state with a submit already in flight (loading flag true). -/
def stBusy : ScreenState := { st1 with loading := true }

/-- Record-write payload produced by the successful run of `handleSubmit
env1 st1`. -/
def payload1 : UpdatePayload :=
  { bio := " hello ",
    avatar := some
      { url := "https://cdn/u1-0.jpg", thumbnail_url := "https://cdn/u1-1-thumb.jpg",
        metadata := { width := 800, height := 400, format := "jpeg", size := 1024 } },
    links := "https://x.com" }

/-! Theorems.  One theorem per claim of the specification, each preceded
by a doc comment naming the claim; shared helper lemmas come first. -/

/-- Helper: any record-write event found in the trace of `finishWrite`
carries the payload built from the bio and links fields of the screen
state, provided the prefix trace `es` contains no write event. -/
theorem mem_write_finishWrite (env : Env) (st : ScreenState) (userId : String)
    (es : List Event) (avatarData : Option ImageData) (uid : String) (p : UpdatePayload)
    (hes : es.countP Event.isWrite = 0)
    (h : Event.dbUpdate uid p ∈ (finishWrite env st userId es avatarData).trace) :
    p.bio = st.bio ∧ p.links = st.links := by
  have hno : ∀ e ∈ es, ¬(Event.isWrite e = true) := List.countP_eq_zero.mp hes
  simp only [finishWrite] at h
  rcases hw : env.updateResult userId { bio := st.bio, avatar := avatarData, links := st.links } with _ | m
  · rw [hw] at h
    simp only [List.mem_append, List.mem_cons, List.mem_singleton] at h
    rcases h with hL | hR | hN
    · exact absurd rfl (hno _ hL)
    · rw [show p = { bio := st.bio, avatar := avatarData, links := st.links } from (Event.dbUpdate.inj hR).2]
      exact ⟨rfl, rfl⟩
    · exact absurd hN (by simp)
  · rw [hw] at h
    simp only [List.mem_append, List.mem_singleton] at h
    rcases h with hL | hR
    · exact absurd rfl (hno _ hL)
    · rw [show p = { bio := st.bio, avatar := avatarData, links := st.links } from (Event.dbUpdate.inj hR).2]
      exact ⟨rfl, rfl⟩

/-- C1: for every submission that reaches the upload step, the record
write is performed only if both derived-image uploads succeed: if the
main upload reports an error its message is the surfaced error and no
write event occurs; if the main upload succeeds and the thumbnail upload
reports an error, that message is the surfaced error and no write event
occurs. -/
theorem upload_failure_blocks_write (env : Env) (st : ScreenState) (uid uri : String)
    (v1 v2 : Variant) (n1 n2 : Nat)
    (hs : st.session = some uid)
    (hb : jsTrim st.bio ≠ "") (hl : jsTrim st.links ≠ "") (ha : st.avatar = some uri)
    (hm1 : env.manipulateAsync uri 800 70 Fmt.jpeg = Except.ok v1)
    (hm2 : env.manipulateAsync uri 200 50 Fmt.jpeg = Except.ok v2)
    (hf1 : env.fetchBlob v1.uri = Except.ok n1)
    (hf2 : env.fetchBlob v2.uri = Except.ok n2) :
    (∀ m, env.uploadResult "avatars" (uid ++ "-" ++ toString (env.clock 0) ++ ".jpg") = some m →
      (handleSubmit env st).error = some m ∧
      (handleSubmit env st).trace.countP Event.isWrite = 0) ∧
    (env.uploadResult "avatars" (uid ++ "-" ++ toString (env.clock 0) ++ ".jpg") = none →
      ∀ m, env.uploadResult "avatars" (uid ++ "-" ++ toString (env.clock 1) ++ "-thumb.jpg") = some m →
      (handleSubmit env st).error = some m ∧
      (handleSubmit env st).trace.countP Event.isWrite = 0) := by
  constructor
  · intro m hu
    simp [handleSubmit, compressImage, hs, hb, hl, ha, hm1, hm2, hf1, hf2, hu,
          Event.isWrite, List.countP_append, List.countP_cons]
  · intro hu1 m hu2
    simp [handleSubmit, compressImage, hs, hb, hl, ha, hm1, hm2, hf1, hf2, hu1, hu2,
          Event.isWrite, List.countP_append, List.countP_cons]

/-- Witness for C1: in the fixture run where the main upload fails, the
surfaced error is the failing upload message and no write event occurs. -/
theorem upload_failure_blocks_write_witness :
    (st1.session = some "u1" ∧ jsTrim st1.bio ≠ "" ∧ jsTrim st1.links ≠ "" ∧
     st1.avatar = some "img" ∧
     envMainUpFail.manipulateAsync "img" 800 70 Fmt.jpeg = Except.ok v800 ∧
     envMainUpFail.manipulateAsync "img" 200 50 Fmt.jpeg = Except.ok v200 ∧
     envMainUpFail.fetchBlob v800.uri = Except.ok 1024 ∧
     envMainUpFail.fetchBlob v200.uri = Except.ok 1024 ∧
     envMainUpFail.uploadResult "avatars"
       ("u1" ++ "-" ++ toString (envMainUpFail.clock 0) ++ ".jpg") = some "main upload failed") ∧
    (handleSubmit envMainUpFail st1).error = some "main upload failed" ∧
    (handleSubmit envMainUpFail st1).trace.countP Event.isWrite = 0 :=
  ⟨⟨rfl, by decide, by decide, rfl, by decide, by decide, by decide, by decide, by decide⟩,
   (upload_failure_blocks_write envMainUpFail st1 "u1" "img" v800 v200 1024 1024
      rfl (by decide) (by decide) rfl (by decide) (by decide) (by decide) (by decide)).1
     "main upload failed" (by decide)⟩

/-- C2: on the fully successful path (non-empty trimmed bio and links,
picked image, both derivations, both fetches and both uploads succeed)
the record write is invoked exactly once, keyed by the current user id,
with url and thumbnail_url equal to the two resolved public URLs and
metadata width/height equal to the reported dimensions of the main
variant. -/
theorem success_write_payload (env : Env) (st : ScreenState) (uid uri : String)
    (v1 v2 : Variant) (n1 n2 : Nat)
    (hs : st.session = some uid)
    (hb : jsTrim st.bio ≠ "") (hl : jsTrim st.links ≠ "") (ha : st.avatar = some uri)
    (hm1 : env.manipulateAsync uri 800 70 Fmt.jpeg = Except.ok v1)
    (hm2 : env.manipulateAsync uri 200 50 Fmt.jpeg = Except.ok v2)
    (hf1 : env.fetchBlob v1.uri = Except.ok n1)
    (hf2 : env.fetchBlob v2.uri = Except.ok n2)
    (hu1 : env.uploadResult "avatars" (uid ++ "-" ++ toString (env.clock 0) ++ ".jpg") = none)
    (hu2 : env.uploadResult "avatars" (uid ++ "-" ++ toString (env.clock 1) ++ "-thumb.jpg") = none) :
    (handleSubmit env st).trace.countP Event.isWrite = 1 ∧
    Event.dbUpdate uid
      { bio := st.bio,
        avatar := some
          { url := env.publicUrl "avatars" (uid ++ "-" ++ toString (env.clock 0) ++ ".jpg"),
            thumbnail_url := env.publicUrl "avatars" (uid ++ "-" ++ toString (env.clock 1) ++ "-thumb.jpg"),
            metadata := { width := v1.width, height := v1.height, format := "jpeg", size := n1 } },
        links := st.links } ∈ (handleSubmit env st).trace := by
  rcases hw : env.updateResult uid
      { bio := st.bio,
        avatar := some
          { url := env.publicUrl "avatars" (uid ++ "-" ++ toString (env.clock 0) ++ ".jpg"),
            thumbnail_url := env.publicUrl "avatars" (uid ++ "-" ++ toString (env.clock 1) ++ "-thumb.jpg"),
            metadata := { width := v1.width, height := v1.height, format := "jpeg", size := n1 } },
        links := st.links } with _ | m <;>
    simp [handleSubmit, compressImage, finishWrite, hs, hb, hl, ha, hm1, hm2, hf1, hf2,
          hu1, hu2, hw, Event.isWrite, List.countP_append, List.countP_cons]

/-- Witness for C2: the fixture run in which everything succeeds writes
exactly once, with the resolved URLs and the main variant dimensions. -/
theorem success_write_payload_witness :
    (st1.session = some "u1" ∧ jsTrim st1.bio ≠ "" ∧ jsTrim st1.links ≠ "" ∧
     st1.avatar = some "img" ∧
     env1.manipulateAsync "img" 800 70 Fmt.jpeg = Except.ok v800 ∧
     env1.manipulateAsync "img" 200 50 Fmt.jpeg = Except.ok v200 ∧
     env1.fetchBlob v800.uri = Except.ok 1024 ∧
     env1.fetchBlob v200.uri = Except.ok 1024 ∧
     env1.uploadResult "avatars" ("u1" ++ "-" ++ toString (env1.clock 0) ++ ".jpg") = none ∧
     env1.uploadResult "avatars" ("u1" ++ "-" ++ toString (env1.clock 1) ++ "-thumb.jpg") = none) ∧
    (handleSubmit env1 st1).trace.countP Event.isWrite = 1 ∧
    Event.dbUpdate "u1"
      { bio := st1.bio,
        avatar := some
          { url := env1.publicUrl "avatars" ("u1" ++ "-" ++ toString (env1.clock 0) ++ ".jpg"),
            thumbnail_url := env1.publicUrl "avatars" ("u1" ++ "-" ++ toString (env1.clock 1) ++ "-thumb.jpg"),
            metadata := { width := v800.width, height := v800.height, format := "jpeg", size := 1024 } },
        links := st1.links } ∈ (handleSubmit env1 st1).trace :=
  ⟨⟨rfl, by decide, by decide, rfl, by decide, by decide, by decide, by decide, rfl, rfl⟩,
   success_write_payload env1 st1 "u1" "img" v800 v200 1024 1024
     rfl (by decide) (by decide) rfl (by decide) (by decide) (by decide) (by decide) rfl rfl⟩

/-- C3: with a session present, if the trimmed bio is empty, no image is
picked, or the trimmed links text is empty, the submission produces
exactly the single validation error All fields are required, an empty
trace (no transformation, upload or write call), and resets loading. -/
theorem validation_blocks_network (env : Env) (st : ScreenState) (uid : String)
    (hs : st.session = some uid)
    (hcond : jsTrim st.bio = "" ∨ st.avatar = none ∨ jsTrim st.links = "") :
    handleSubmit env st =
      { trace := [], error := some "All fields are required.", loading := false } := by
  simp only [handleSubmit, hs]
  rw [if_pos hcond]

/-- Witness for C3: a whitespace-only bio triggers the validation error
and an empty trace. -/
theorem validation_blocks_network_witness :
    (stBlankBio.session = some "u1" ∧ jsTrim stBlankBio.bio = "") ∧
    handleSubmit env1 stBlankBio =
      { trace := [], error := some "All fields are required.", loading := false } :=
  ⟨⟨rfl, by decide⟩,
   validation_blocks_network env1 stBlankBio "u1" rfl (Or.inl (by decide))⟩

/-- C4: the image derivation produces exactly two variants, both derived
from the original input uri (the thumbnail is not derived from the main
variant): the main one resized to width 800 at quality 0.70 and the
thumbnail resized to width 200 at quality 0.50, both JPEG. -/
theorem compressImage_two_variants (env : Env) (uri : String) (v1 v2 : Variant)
    (hm1 : env.manipulateAsync uri 800 70 Fmt.jpeg = Except.ok v1)
    (hm2 : env.manipulateAsync uri 200 50 Fmt.jpeg = Except.ok v2) :
    compressImage env uri =
      ([Event.manip uri 800 70 Fmt.jpeg, Event.manip uri 200 50 Fmt.jpeg],
       Except.ok (v1, v2)) := by
  simp [compressImage, hm1, hm2]

/-- Witness for C4: concrete derivation of the two fixture variants. -/
theorem compressImage_two_variants_witness :
    (env1.manipulateAsync "img" 800 70 Fmt.jpeg = Except.ok v800 ∧
     env1.manipulateAsync "img" 200 50 Fmt.jpeg = Except.ok v200) ∧
    compressImage env1 "img" =
      ([Event.manip "img" 800 70 Fmt.jpeg, Event.manip "img" 200 50 Fmt.jpeg],
       Except.ok (v800, v200)) :=
  ⟨⟨by decide, by decide⟩,
   compressImage_two_variants env1 "img" v800 v200 (by decide) (by decide)⟩

/-- C5 (counterexample): the claim quotes the generic failure message as
failed to compress image, but the code throws Error with message Failed
to compress image (capital F); at a concrete failing derivation the
displayed error is the capitalized string, not the quoted one. -/
theorem compress_failure_message_cex :
    (handleSubmit envManipFail st1).error = some "Failed to compress image" ∧
    (handleSubmit envManipFail st1).error ≠ some "failed to compress image" := by
  constructor
  · rfl
  · decide

/-- C5 (amended): for every submission in which either image derivation
fails, the whole submission aborts before any upload, fetch or record
write, the loading flag resets, and the failure is reported as the single
generic error message Failed to compress image. -/
theorem compress_failure_aborts (env : Env) (st : ScreenState) (uid uri : String)
    (hs : st.session = some uid)
    (hb : jsTrim st.bio ≠ "") (hl : jsTrim st.links ≠ "") (ha : st.avatar = some uri)
    (hm : env.manipulateAsync uri 800 70 Fmt.jpeg = Except.error () ∨
          env.manipulateAsync uri 200 50 Fmt.jpeg = Except.error ()) :
    (handleSubmit env st).error = some "Failed to compress image" ∧
    (handleSubmit env st).loading = false ∧
    (handleSubmit env st).trace.countP Event.isUpload = 0 ∧
    (handleSubmit env st).trace.countP Event.isWrite = 0 ∧
    (handleSubmit env st).trace.countP Event.isFetch = 0 := by
  rcases hm with hm | hm
  · simp [handleSubmit, compressImage, hs, hb, hl, ha, hm,
          Event.isUpload, Event.isWrite, Event.isFetch, List.countP_cons]
  · rcases h1 : env.manipulateAsync uri 800 70 Fmt.jpeg with u | v1
    · simp [handleSubmit, compressImage, hs, hb, hl, ha, h1,
            Event.isUpload, Event.isWrite, Event.isFetch, List.countP_cons]
    · simp [handleSubmit, compressImage, hs, hb, hl, ha, h1, hm,
            Event.isUpload, Event.isWrite, Event.isFetch, List.countP_cons]

/-- Witness for C5 (amended): the fixture whose manipulator always fails
aborts with the capitalized generic message and issues no upload, write
or fetch call. -/
theorem compress_failure_aborts_witness :
    (st1.session = some "u1" ∧ jsTrim st1.bio ≠ "" ∧ jsTrim st1.links ≠ "" ∧
     st1.avatar = some "img" ∧
     envManipFail.manipulateAsync "img" 800 70 Fmt.jpeg = Except.error ()) ∧
    (handleSubmit envManipFail st1).error = some "Failed to compress image" ∧
    (handleSubmit envManipFail st1).loading = false ∧
    (handleSubmit envManipFail st1).trace.countP Event.isUpload = 0 ∧
    (handleSubmit envManipFail st1).trace.countP Event.isWrite = 0 ∧
    (handleSubmit envManipFail st1).trace.countP Event.isFetch = 0 :=
  ⟨⟨rfl, by decide, by decide, rfl, by decide⟩,
   compress_failure_aborts envManipFail st1 "u1" "img"
     rfl (by decide) (by decide) rfl (Or.inl (by decide))⟩

/-- C6: once the derivations and both blob reads succeed, the trace
begins with the two derivations, the two blob reads, and then the two
uploads as an adjacent fan-out pair (the join of the pair is awaited, so
every subsequent step comes after both upload events); the main storage
key combines the user id, the first clock read and the jpg extension,
and the thumbnail key combines the user id, the second clock read and
the -thumb suffix; no further upload is ever issued. -/
theorem upload_keys_and_fanout (env : Env) (st : ScreenState) (uid uri : String)
    (v1 v2 : Variant) (n1 n2 : Nat)
    (hs : st.session = some uid)
    (hb : jsTrim st.bio ≠ "") (hl : jsTrim st.links ≠ "") (ha : st.avatar = some uri)
    (hm1 : env.manipulateAsync uri 800 70 Fmt.jpeg = Except.ok v1)
    (hm2 : env.manipulateAsync uri 200 50 Fmt.jpeg = Except.ok v2)
    (hf1 : env.fetchBlob v1.uri = Except.ok n1)
    (hf2 : env.fetchBlob v2.uri = Except.ok n2) :
    (handleSubmit env st).trace.take 6 =
      [Event.manip uri 800 70 Fmt.jpeg, Event.manip uri 200 50 Fmt.jpeg,
       Event.fetchBlob v1.uri, Event.fetchBlob v2.uri,
       Event.storageUpload "avatars" (uid ++ "-" ++ toString (env.clock 0) ++ ".jpg") n1,
       Event.storageUpload "avatars" (uid ++ "-" ++ toString (env.clock 1) ++ "-thumb.jpg") n2] ∧
    (handleSubmit env st).trace.countP Event.isUpload = 2 := by
  rcases hu1 : env.uploadResult "avatars" (uid ++ "-" ++ toString (env.clock 0) ++ ".jpg") with _ | m1
  · rcases hu2 : env.uploadResult "avatars" (uid ++ "-" ++ toString (env.clock 1) ++ "-thumb.jpg") with _ | m2
    · rcases hw : env.updateResult uid
          { bio := st.bio,
            avatar := some
              { url := env.publicUrl "avatars" (uid ++ "-" ++ toString (env.clock 0) ++ ".jpg"),
                thumbnail_url := env.publicUrl "avatars" (uid ++ "-" ++ toString (env.clock 1) ++ "-thumb.jpg"),
                metadata := { width := v1.width, height := v1.height, format := "jpeg", size := n1 } },
            links := st.links } with _ | m3 <;>
        simp [handleSubmit, compressImage, finishWrite, hs, hb, hl, ha, hm1, hm2, hf1, hf2,
              hu1, hu2, hw, Event.isUpload, List.countP_append, List.countP_cons]
    · simp [handleSubmit, compressImage, hs, hb, hl, ha, hm1, hm2, hf1, hf2, hu1, hu2,
            Event.isUpload, List.countP_append, List.countP_cons]
  · simp [handleSubmit, compressImage, hs, hb, hl, ha, hm1, hm2, hf1, hf2, hu1,
          Event.isUpload, List.countP_append, List.countP_cons]

/-- Witness for C6: the successful fixture run exhibits the six-event
prefix with the two adjacent uploads and exactly two upload events. -/
theorem upload_keys_and_fanout_witness :
    (st1.session = some "u1" ∧ jsTrim st1.bio ≠ "" ∧ jsTrim st1.links ≠ "" ∧
     st1.avatar = some "img" ∧
     env1.manipulateAsync "img" 800 70 Fmt.jpeg = Except.ok v800 ∧
     env1.manipulateAsync "img" 200 50 Fmt.jpeg = Except.ok v200 ∧
     env1.fetchBlob v800.uri = Except.ok 1024 ∧
     env1.fetchBlob v200.uri = Except.ok 1024) ∧
    (handleSubmit env1 st1).trace.take 6 =
      [Event.manip "img" 800 70 Fmt.jpeg, Event.manip "img" 200 50 Fmt.jpeg,
       Event.fetchBlob v800.uri, Event.fetchBlob v200.uri,
       Event.storageUpload "avatars" ("u1" ++ "-" ++ toString (env1.clock 0) ++ ".jpg") 1024,
       Event.storageUpload "avatars" ("u1" ++ "-" ++ toString (env1.clock 1) ++ "-thumb.jpg") 1024] ∧
    (handleSubmit env1 st1).trace.countP Event.isUpload = 2 :=
  ⟨⟨rfl, by decide, by decide, rfl, by decide, by decide, by decide, by decide⟩,
   upload_keys_and_fanout env1 st1 "u1" "img" v800 v200 1024 1024
     rfl (by decide) (by decide) rfl (by decide) (by decide) (by decide) (by decide)⟩

/-- C7: when both uploads succeed and the record write fails, the error
message of the failed write is shown, the loading flag is reset, no
deletion call is ever issued, and both uploaded objects appear in the
trace (they remain in storage with no compensating removal). -/
theorem write_failure_keeps_uploads (env : Env) (st : ScreenState) (uid uri : String)
    (v1 v2 : Variant) (n1 n2 : Nat) (m : String)
    (hs : st.session = some uid)
    (hb : jsTrim st.bio ≠ "") (hl : jsTrim st.links ≠ "") (ha : st.avatar = some uri)
    (hm1 : env.manipulateAsync uri 800 70 Fmt.jpeg = Except.ok v1)
    (hm2 : env.manipulateAsync uri 200 50 Fmt.jpeg = Except.ok v2)
    (hf1 : env.fetchBlob v1.uri = Except.ok n1)
    (hf2 : env.fetchBlob v2.uri = Except.ok n2)
    (hu1 : env.uploadResult "avatars" (uid ++ "-" ++ toString (env.clock 0) ++ ".jpg") = none)
    (hu2 : env.uploadResult "avatars" (uid ++ "-" ++ toString (env.clock 1) ++ "-thumb.jpg") = none)
    (hw : env.updateResult uid
      { bio := st.bio,
        avatar := some
          { url := env.publicUrl "avatars" (uid ++ "-" ++ toString (env.clock 0) ++ ".jpg"),
            thumbnail_url := env.publicUrl "avatars" (uid ++ "-" ++ toString (env.clock 1) ++ "-thumb.jpg"),
            metadata := { width := v1.width, height := v1.height, format := "jpeg", size := n1 } },
        links := st.links } = some m) :
    (handleSubmit env st).error = some m ∧
    (handleSubmit env st).loading = false ∧
    (handleSubmit env st).trace.countP Event.isRemove = 0 ∧
    Event.storageUpload "avatars" (uid ++ "-" ++ toString (env.clock 0) ++ ".jpg") n1
      ∈ (handleSubmit env st).trace ∧
    Event.storageUpload "avatars" (uid ++ "-" ++ toString (env.clock 1) ++ "-thumb.jpg") n2
      ∈ (handleSubmit env st).trace := by
  simp [handleSubmit, compressImage, finishWrite, hs, hb, hl, ha, hm1, hm2, hf1, hf2,
        hu1, hu2, hw, Event.isRemove, List.countP_append, List.countP_cons]

/-- Witness for C7: the fixture whose record write fails shows the
datastore error, resets loading, issues no deletion, and keeps both
uploads in the trace. -/
theorem write_failure_keeps_uploads_witness :
    (st1.session = some "u1" ∧ jsTrim st1.bio ≠ "" ∧ jsTrim st1.links ≠ "" ∧
     st1.avatar = some "img" ∧
     envWriteFail.manipulateAsync "img" 800 70 Fmt.jpeg = Except.ok v800 ∧
     envWriteFail.manipulateAsync "img" 200 50 Fmt.jpeg = Except.ok v200 ∧
     envWriteFail.fetchBlob v800.uri = Except.ok 1024 ∧
     envWriteFail.fetchBlob v200.uri = Except.ok 1024 ∧
     envWriteFail.uploadResult "avatars" ("u1" ++ "-" ++ toString (envWriteFail.clock 0) ++ ".jpg") = none ∧
     envWriteFail.uploadResult "avatars" ("u1" ++ "-" ++ toString (envWriteFail.clock 1) ++ "-thumb.jpg") = none ∧
     envWriteFail.updateResult "u1"
       { bio := st1.bio,
         avatar := some
           { url := envWriteFail.publicUrl "avatars" ("u1" ++ "-" ++ toString (envWriteFail.clock 0) ++ ".jpg"),
             thumbnail_url := envWriteFail.publicUrl "avatars" ("u1" ++ "-" ++ toString (envWriteFail.clock 1) ++ "-thumb.jpg"),
             metadata := { width := v800.width, height := v800.height, format := "jpeg", size := 1024 } },
         links := st1.links } = some "db down") ∧
    (handleSubmit envWriteFail st1).error = some "db down" ∧
    (handleSubmit envWriteFail st1).loading = false ∧
    (handleSubmit envWriteFail st1).trace.countP Event.isRemove = 0 ∧
    Event.storageUpload "avatars" ("u1" ++ "-" ++ toString (envWriteFail.clock 0) ++ ".jpg") 1024
      ∈ (handleSubmit envWriteFail st1).trace ∧
    Event.storageUpload "avatars" ("u1" ++ "-" ++ toString (envWriteFail.clock 1) ++ "-thumb.jpg") 1024
      ∈ (handleSubmit envWriteFail st1).trace :=
  ⟨⟨rfl, by decide, by decide, rfl, by decide, by decide, by decide, by decide, rfl, rfl, rfl⟩,
   write_failure_keeps_uploads envWriteFail st1 "u1" "img" v800 v200 1024 1024 "db down"
     rfl (by decide) (by decide) rfl (by decide) (by decide) (by decide) (by decide) rfl rfl rfl⟩

/-- C8: pressing the submit control while the loading flag is true does
not start any transformation, upload or write sequence: the control is
disabled, so the press is a no-op that leaves the observable state
unchanged (the gating lives in the disabled control, not inside
handleSubmit itself). -/
theorem loading_gates_submit (env : Env) (st : ScreenState) (h : st.loading = true) :
    savePress env st = { trace := [], error := st.error, loading := st.loading } := by
  simp [savePress, h]

/-- Witness for C8: pressing the control in the busy fixture changes
nothing and issues no call. -/
theorem loading_gates_submit_witness :
    stBusy.loading = true ∧
    savePress env1 stBusy = { trace := [], error := stBusy.error, loading := stBusy.loading } :=
  ⟨rfl, loading_gates_submit env1 stBusy rfl⟩

/-- C9: whatever record write the submission issues carries the bio and
links strings exactly as entered, untrimmed; trimming is used only by the
validation guard. -/
theorem write_persists_untrimmed_text (env : Env) (st : ScreenState)
    (uid : String) (p : UpdatePayload)
    (h : Event.dbUpdate uid p ∈ (handleSubmit env st).trace) :
    p.bio = st.bio ∧ p.links = st.links := by
  rcases hses : st.session with _ | userId
  · simp [handleSubmit, hses] at h
  · rcases hav : st.avatar with _ | uri
    · simp [handleSubmit, hses, hav] at h
    · by_cases hb : jsTrim st.bio = ""
      · simp [handleSubmit, hses, hb] at h
      · by_cases hl : jsTrim st.links = ""
        · simp [handleSubmit, hses, hl] at h
        · rcases hm1 : env.manipulateAsync uri 800 70 Fmt.jpeg with u | v1
          · simp [handleSubmit, compressImage, hses, hav, hb, hl, hm1] at h
          · rcases hm2 : env.manipulateAsync uri 200 50 Fmt.jpeg with u | v2
            · simp [handleSubmit, compressImage, hses, hav, hb, hl, hm1, hm2] at h
            · rcases hf1 : env.fetchBlob v1.uri with msg | n1
              · simp [handleSubmit, compressImage, hses, hav, hb, hl, hm1, hm2, hf1] at h
              · rcases hf2 : env.fetchBlob v2.uri with msg | n2
                · simp [handleSubmit, compressImage, hses, hav, hb, hl, hm1, hm2, hf1, hf2] at h
                · rcases hu1 : env.uploadResult "avatars" (userId ++ "-" ++ toString (env.clock 0) ++ ".jpg") with _ | m1
                  · rcases hu2 : env.uploadResult "avatars" (userId ++ "-" ++ toString (env.clock 1) ++ "-thumb.jpg") with _ | m2
                    · simp only [handleSubmit, compressImage, hses, hav, hb, hl, hm1, hm2,
                                 hf1, hf2, hu1, hu2] at h
                      refine mem_write_finishWrite env st userId _ _ uid p ?_ h
                      simp [Event.isWrite, List.countP_append, List.countP_cons]
                    · simp [handleSubmit, compressImage, hses, hav, hb, hl, hm1, hm2,
                            hf1, hf2, hu1, hu2] at h
                  · simp [handleSubmit, compressImage, hses, hav, hb, hl, hm1, hm2,
                          hf1, hf2, hu1] at h

/-- Witness for C9: the write issued by the successful fixture run
persists the untrimmed bio (with its surrounding spaces) and links. -/
theorem write_persists_untrimmed_text_witness :
    Event.dbUpdate "u1" payload1 ∈ (handleSubmit env1 st1).trace ∧
    payload1.bio = st1.bio ∧ payload1.links = st1.links :=
  ⟨by decide, write_persists_untrimmed_text env1 st1 "u1" payload1 (by decide)⟩

/-- C10: the two storage keys embed two independent clock reads — the
main key the first read, the thumbnail key the second — and there are
executions (the fixture clock advances between reads) in which the two
timestamps differ, so the thumbnail key is not the main key stem followed
by the -thumb suffix. -/
theorem upload_timestamps_independent (env : Env) (st : ScreenState) (uid uri : String)
    (v1 v2 : Variant) (n1 n2 : Nat)
    (hs : st.session = some uid)
    (hb : jsTrim st.bio ≠ "") (hl : jsTrim st.links ≠ "") (ha : st.avatar = some uri)
    (hm1 : env.manipulateAsync uri 800 70 Fmt.jpeg = Except.ok v1)
    (hm2 : env.manipulateAsync uri 200 50 Fmt.jpeg = Except.ok v2)
    (hf1 : env.fetchBlob v1.uri = Except.ok n1)
    (hf2 : env.fetchBlob v2.uri = Except.ok n2) :
    ((handleSubmit env st).trace.take 6).drop 4 =
      [Event.storageUpload "avatars" (uid ++ "-" ++ toString (env.clock 0) ++ ".jpg") n1,
       Event.storageUpload "avatars" (uid ++ "-" ++ toString (env.clock 1) ++ "-thumb.jpg") n2] ∧
    Event.storageUpload "avatars" "u1-0.jpg" 1024 ∈ (handleSubmit env1 st1).trace ∧
    Event.storageUpload "avatars" "u1-1-thumb.jpg" 1024 ∈ (handleSubmit env1 st1).trace ∧
    ("u1-1-thumb.jpg" : String) ≠ "u1-0" ++ "-thumb.jpg" := by
  refine ⟨?_, by decide, by decide, by decide⟩
  rcases hu1 : env.uploadResult "avatars" (uid ++ "-" ++ toString (env.clock 0) ++ ".jpg") with _ | m1
  · rcases hu2 : env.uploadResult "avatars" (uid ++ "-" ++ toString (env.clock 1) ++ "-thumb.jpg") with _ | m2
    · rcases hw : env.updateResult uid
          { bio := st.bio,
            avatar := some
              { url := env.publicUrl "avatars" (uid ++ "-" ++ toString (env.clock 0) ++ ".jpg"),
                thumbnail_url := env.publicUrl "avatars" (uid ++ "-" ++ toString (env.clock 1) ++ "-thumb.jpg"),
                metadata := { width := v1.width, height := v1.height, format := "jpeg", size := n1 } },
            links := st.links } with _ | m3 <;>
        simp [handleSubmit, compressImage, finishWrite, hs, hb, hl, ha, hm1, hm2, hf1, hf2, hu1, hu2, hw]
    · simp [handleSubmit, compressImage, hs, hb, hl, ha, hm1, hm2, hf1, hf2, hu1, hu2]
  · simp [handleSubmit, compressImage, hs, hb, hl, ha, hm1, hm2, hf1, hf2, hu1]

/-- Witness for C10: the fixture run reads the clock twice (values 0 and
1), so the two keys carry different timestamps. -/
theorem upload_timestamps_independent_witness :
    (st1.session = some "u1" ∧ jsTrim st1.bio ≠ "" ∧ jsTrim st1.links ≠ "" ∧
     st1.avatar = some "img" ∧
     env1.manipulateAsync "img" 800 70 Fmt.jpeg = Except.ok v800 ∧
     env1.manipulateAsync "img" 200 50 Fmt.jpeg = Except.ok v200 ∧
     env1.fetchBlob v800.uri = Except.ok 1024 ∧
     env1.fetchBlob v200.uri = Except.ok 1024) ∧
    ((handleSubmit env1 st1).trace.take 6).drop 4 =
      [Event.storageUpload "avatars" ("u1" ++ "-" ++ toString (env1.clock 0) ++ ".jpg") 1024,
       Event.storageUpload "avatars" ("u1" ++ "-" ++ toString (env1.clock 1) ++ "-thumb.jpg") 1024] ∧
    Event.storageUpload "avatars" "u1-0.jpg" 1024 ∈ (handleSubmit env1 st1).trace ∧
    Event.storageUpload "avatars" "u1-1-thumb.jpg" 1024 ∈ (handleSubmit env1 st1).trace ∧
    ("u1-1-thumb.jpg" : String) ≠ "u1-0" ++ "-thumb.jpg" :=
  ⟨⟨rfl, by decide, by decide, rfl, by decide, by decide, by decide, by decide⟩,
   upload_timestamps_independent env1 st1 "u1" "img" v800 v200 1024 1024
     rfl (by decide) (by decide) rfl (by decide) (by decide) (by decide) (by decide)⟩

end ProfileCompletion
